import Mathlib

/-!
Shallow embedding of the unit-conversion pipeline in `eim/tools/analysis.py`.

The module is a chain of stateless numpy formulas.  Three layers are
modelled here:

* scalar formulas over `ℝ` (`bioemo_readings_to_volts`, …), mirroring the
  arithmetic the source performs on each element;
* a value-level model (`PyVal`, `NpArr`, `npAsarray`) of how each source
  function coerces its Python argument through `np.asarray` (or, for the
  `unit_to_*` helpers, applies a raw Python operator), used for the
  shape-preservation and error-kind claims;
* an extended-number type `NpNum` with infinities and a not-a-number value,
  reproducing the numeric library's behaviour of `log` at zero and negative
  arguments and of division by zero, used for the numeric-edge-case claim.
-/

open Real

/-- Source: `bioemo_readings_to_volts`, scalar formula
`(np.asarray(readings) / 1023.) * 5.`. -/
noncomputable def bioemo_readings_to_volts (readings : ℝ) : ℝ :=
  (readings / 1023) * 5

/-- Source: `bioemo_volts_to_ohms`, scalar formula
`left = 0.861/0.00117; right = (1./0.00117) * np.log(volts); (left - right) * 1000`. -/
noncomputable def bioemo_volts_to_ohms (volts : ℝ) : ℝ :=
  let left : ℝ := 0.861 / 0.00117
  let right : ℝ := (1 / 0.00117) * Real.log volts
  (left - right) * 1000

/-- Source: `ohms_to_siemens`, scalar formula `1. / np.asarray(ohms)`. -/
noncomputable def ohms_to_siemens (ohms : ℝ) : ℝ :=
  1 / ohms

/-- Source: `siemens_to_ohms`, body is `return ohms_to_siemens(siemens)`. -/
noncomputable def siemens_to_ohms (siemens : ℝ) : ℝ :=
  ohms_to_siemens siemens

/-- Source: `bioemo_volts_to_siemens`, body is
`ohms = bioemo_volts_to_ohms(volts); siemens = ohms_to_siemens(ohms); return siemens`. -/
noncomputable def bioemo_volts_to_siemens (volts : ℝ) : ℝ :=
  ohms_to_siemens (bioemo_volts_to_ohms volts)

/-- Source: `bioemo_readings_to_siemens`, body is
`volts = bioemo_readings_to_volts(readings); return bioemo_volts_to_siemens(volts)`. -/
noncomputable def bioemo_readings_to_siemens (readings : ℝ) : ℝ :=
  bioemo_volts_to_siemens (bioemo_readings_to_volts readings)

/-- Source: `unit_to_kilounit`, body is `measure / 1000.`. -/
noncomputable def unit_to_kilounit (measure : ℝ) : ℝ :=
  measure / 1000

/-- Source: `unit_to_megaunit`, body is `measure / 1000000.`. -/
noncomputable def unit_to_megaunit (measure : ℝ) : ℝ :=
  measure / 1000000

/-- Source: `unit_to_gigaunit`, body is `measure / 1000000000.`. -/
noncomputable def unit_to_gigaunit (measure : ℝ) : ℝ :=
  measure / 1000000000

/-- Source: `unit_to_milliunit`, body is `measure * 1000.`. -/
noncomputable def unit_to_milliunit (measure : ℝ) : ℝ :=
  measure * 1000

/-- Source: `unit_to_microunit`, body is `measure * 1000000.`. -/
noncomputable def unit_to_microunit (measure : ℝ) : ℝ :=
  measure * 1000000

/-- Source: `unit_to_nanounit`, body is `measure * 1000000000.`. -/
noncomputable def unit_to_nanounit (measure : ℝ) : ℝ :=
  measure * 1000000000

/-- Result of `np.asarray`: a numpy scalar or a one-dimensional numpy array. -/
inductive NpArr where
  | scalar (x : ℝ)
  | arr (xs : List ℝ)

/-- A Python argument as the source functions can receive it: a numeric
scalar, a numpy array, a plain Python list of numbers, or an object that
`np.asarray` cannot coerce to a numeric array. -/
inductive PyVal where
  | num (x : ℝ)
  | ndarray (xs : List ℝ)
  | pylist (xs : List ℝ)
  | obj

/-- The Python exception kinds relevant to this module. -/
inductive PyErr where
  | typeError
  | valueError
  | zeroDivisionError

/-- Model of `np.asarray`: numeric scalars and numeric sequences coerce, a
non-numeric object raises `TypeError`. -/
def npAsarray : PyVal → Except PyErr NpArr
  | .num x => .ok (.scalar x)
  | .ndarray xs => .ok (.arr xs)
  | .pylist xs => .ok (.arr xs)
  | .obj => .error .typeError

/-- Elementwise application of a scalar formula, as numpy broadcasting does. -/
noncomputable def npMap (f : ℝ → ℝ) : NpArr → NpArr
  | .scalar x => .scalar (f x)
  | .arr xs => .arr (xs.map f)

/-- A numpy result handed back into Python as an argument value. -/
def NpArr.toPyVal : NpArr → PyVal
  | .scalar x => .num x
  | .arr xs => .ndarray xs

/-- Model of Python `v / c` with a float literal `c`: floats and numpy arrays
divide (elementwise), a plain list or other object raises `TypeError`. -/
noncomputable def pyDivFloat : PyVal → ℝ → Except PyErr PyVal
  | .num x, c => .ok (.num (x / c))
  | .ndarray xs, c => .ok (.ndarray (xs.map (fun y => y / c)))
  | .pylist _, _ => .error .typeError
  | .obj, _ => .error .typeError

/-- Model of Python `v * c` with a float literal `c`: floats and numpy arrays
multiply (elementwise); a plain list cannot be replicated by a float and
raises `TypeError`, as does any other object. -/
noncomputable def pyMulFloat : PyVal → ℝ → Except PyErr PyVal
  | .num x, c => .ok (.num (x * c))
  | .ndarray xs, c => .ok (.ndarray (xs.map (fun y => y * c)))
  | .pylist _, _ => .error .typeError
  | .obj, _ => .error .typeError

/-- `bioemo_readings_to_volts` at the Python level: coerce through
`np.asarray`, then apply the scalar formula elementwise. -/
noncomputable def np_bioemo_readings_to_volts (readings : PyVal) : Except PyErr NpArr :=
  match npAsarray readings with
  | .error e => .error e
  | .ok a => .ok (npMap bioemo_readings_to_volts a)

/-- `bioemo_volts_to_ohms` at the Python level: coerce through `np.asarray`,
then apply the scalar formula elementwise. -/
noncomputable def np_bioemo_volts_to_ohms (volts : PyVal) : Except PyErr NpArr :=
  match npAsarray volts with
  | .error e => .error e
  | .ok a => .ok (npMap bioemo_volts_to_ohms a)

/-- `ohms_to_siemens` at the Python level: coerce through `np.asarray`, then
take the elementwise reciprocal. -/
noncomputable def np_ohms_to_siemens (ohms : PyVal) : Except PyErr NpArr :=
  match npAsarray ohms with
  | .error e => .error e
  | .ok a => .ok (npMap ohms_to_siemens a)

/-- `siemens_to_ohms` at the Python level: the source body just calls
`ohms_to_siemens`. -/
noncomputable def np_siemens_to_ohms (siemens : PyVal) : Except PyErr NpArr :=
  np_ohms_to_siemens siemens

/-- `bioemo_volts_to_siemens` at the Python level: chain `volts→ohms` then
`ohms→siemens`, as the source body does. -/
noncomputable def np_bioemo_volts_to_siemens (volts : PyVal) : Except PyErr NpArr :=
  match np_bioemo_volts_to_ohms volts with
  | .error e => .error e
  | .ok ohms => np_ohms_to_siemens ohms.toPyVal

/-- `bioemo_readings_to_siemens` at the Python level: coerce the readings,
convert to volts, then to siemens, as the source body does. -/
noncomputable def np_bioemo_readings_to_siemens (readings : PyVal) : Except PyErr NpArr :=
  match npAsarray readings with
  | .error e => .error e
  | .ok r =>
    match np_bioemo_readings_to_volts r.toPyVal with
    | .error e => .error e
    | .ok volts => np_bioemo_volts_to_siemens volts.toPyVal

/-- `unit_to_kilounit` at the Python level: the source body is the bare
Python expression `measure / 1000.` with no `np.asarray` coercion. -/
noncomputable def np_unit_to_kilounit (measure : PyVal) : Except PyErr PyVal :=
  pyDivFloat measure 1000

/-- `unit_to_megaunit` at the Python level: bare `measure / 1000000.`. -/
noncomputable def np_unit_to_megaunit (measure : PyVal) : Except PyErr PyVal :=
  pyDivFloat measure 1000000

/-- `unit_to_gigaunit` at the Python level: bare `measure / 1000000000.`. -/
noncomputable def np_unit_to_gigaunit (measure : PyVal) : Except PyErr PyVal :=
  pyDivFloat measure 1000000000

/-- `unit_to_milliunit` at the Python level: bare `measure * 1000.`. -/
noncomputable def np_unit_to_milliunit (measure : PyVal) : Except PyErr PyVal :=
  pyMulFloat measure 1000

/-- `unit_to_microunit` at the Python level: bare `measure * 1000000.`. -/
noncomputable def np_unit_to_microunit (measure : PyVal) : Except PyErr PyVal :=
  pyMulFloat measure 1000000

/-- `unit_to_nanounit` at the Python level: bare `measure * 1000000000.`. -/
noncomputable def np_unit_to_nanounit (measure : PyVal) : Except PyErr PyVal :=
  pyMulFloat measure 1000000000

/-- An IEEE-style extended number as numpy computes with: a finite real, a
signed infinity, or a not-a-number value.  Rounding is idealised away; only
the infinity and not-a-number propagation rules are modelled. -/
inductive NpNum where
  | fin (x : ℝ)
  | inf
  | ninf
  | nan

open Classical in
/-- numpy `log` on extended numbers: `nan` for negative arguments, `-inf` at
zero, the real logarithm on positive finite arguments. -/
noncomputable def NpNum.log : NpNum → NpNum
  | .fin x => if x < 0 then .nan else if x = 0 then .ninf else .fin (Real.log x)
  | .inf => .inf
  | .ninf => .nan
  | .nan => .nan

/-- numpy subtraction on extended numbers. -/
noncomputable def NpNum.sub : NpNum → NpNum → NpNum
  | .nan, _ => .nan
  | _, .nan => .nan
  | .fin x, .fin y => .fin (x - y)
  | .fin _, .inf => .ninf
  | .fin _, .ninf => .inf
  | .inf, .fin _ => .inf
  | .inf, .inf => .nan
  | .inf, .ninf => .inf
  | .ninf, .fin _ => .ninf
  | .ninf, .inf => .ninf
  | .ninf, .ninf => .nan

open Classical in
/-- numpy multiplication on extended numbers. -/
noncomputable def NpNum.mul : NpNum → NpNum → NpNum
  | .nan, _ => .nan
  | _, .nan => .nan
  | .fin x, .fin y => .fin (x * y)
  | .fin x, .inf => if 0 < x then .inf else if x < 0 then .ninf else .nan
  | .fin x, .ninf => if 0 < x then .ninf else if x < 0 then .inf else .nan
  | .inf, .fin y => if 0 < y then .inf else if y < 0 then .ninf else .nan
  | .ninf, .fin y => if 0 < y then .ninf else if y < 0 then .inf else .nan
  | .inf, .inf => .inf
  | .inf, .ninf => .ninf
  | .ninf, .inf => .ninf
  | .ninf, .ninf => .inf

open Classical in
/-- numpy division on extended numbers; a finite nonzero value divided by
(positive) zero gives a signed infinity, zero by zero gives `nan`. -/
noncomputable def NpNum.div : NpNum → NpNum → NpNum
  | .nan, _ => .nan
  | _, .nan => .nan
  | .fin x, .fin y =>
      if y = 0 then (if x = 0 then .nan else if 0 < x then .inf else .ninf)
      else .fin (x / y)
  | .fin _, .inf => .fin 0
  | .fin _, .ninf => .fin 0
  | .inf, .fin y => if y < 0 then .ninf else .inf
  | .ninf, .fin y => if y < 0 then .inf else .ninf
  | .inf, .inf => .nan
  | .inf, .ninf => .nan
  | .ninf, .inf => .nan
  | .ninf, .ninf => .nan

/-- The `bioemo_volts_to_ohms` arithmetic carried out on extended numbers,
exactly as the source orders it: `(left - right * log volts) * 1000`. -/
noncomputable def num_bioemo_volts_to_ohms (volts : NpNum) : NpNum :=
  ((NpNum.fin (0.861 / 0.00117)).sub ((NpNum.fin (1 / 0.00117)).mul volts.log)).mul
    (NpNum.fin 1000)

/-- The `ohms_to_siemens` arithmetic carried out on extended numbers:
`1 / ohms`. -/
noncomputable def num_ohms_to_siemens (ohms : NpNum) : NpNum :=
  (NpNum.fin 1).div ohms

/-- C1 — `bioemo_readings_to_volts` computes `(x/1023)*5`, and at the ADC
midpoint 512 the result is within 0.001 of 2.5024437927663734. -/
theorem readings_to_volts_formula :
    (∀ x : ℝ, bioemo_readings_to_volts x = (x / 1023) * 5) ∧
    |bioemo_readings_to_volts 512 - 2.5024437927663734| < 0.001 := by
  constructor
  · intro x
    rfl
  · unfold bioemo_readings_to_volts
    rw [abs_lt]
    norm_num

/-- C2 — `bioemo_volts_to_ohms` computes `(0.861/0.00117 − ln V/0.00117) * 1000`
with the calibration constants 0.861 and 0.00117, and at 2 volts the result is
within 0.001 of 143463.94823936306. -/
theorem volts_to_ohms_formula :
    (∀ v : ℝ, bioemo_volts_to_ohms v = (0.861 / 0.00117 - Real.log v / 0.00117) * 1000) ∧
    |bioemo_volts_to_ohms 2 - 143463.94823936306| < 0.001 := by
  constructor
  · intro v
    unfold bioemo_volts_to_ohms
    ring
  · have h1 := Real.log_two_gt_d9
    have h2 := Real.log_two_lt_d9
    unfold bioemo_volts_to_ohms
    rw [abs_lt]
    constructor <;> nlinarith [h1, h2]

/-- The exponential of 0.908 lies strictly below `2560/1023`, hence below the
voltage that the ADC reading 512 maps to. -/
theorem exp_ninehundredeight_lt :
    Real.exp 0.908 < 2560 / 1023 := by
  have hsplit : Real.exp 0.908 * Real.exp 0.092 = Real.exp 1 := by
    rw [← Real.exp_add]
    norm_num
  have hlow : (0.092 : ℝ) + 1 < Real.exp 0.092 := Real.add_one_lt_exp (by norm_num)
  have hone := Real.exp_one_lt_d9
  have hpos : (0 : ℝ) < Real.exp 0.908 := Real.exp_pos _
  nlinarith [mul_pos hpos (by linarith : (0 : ℝ) < Real.exp 0.092 - 1.092)]

/-- The logarithm of the voltage for reading 512 exceeds 0.908, which pushes
the fitted resistance below −40000 ohms. -/
theorem log_midrange_volts_gt :
    (0.908 : ℝ) < Real.log (2560 / 1023) := by
  rw [Real.lt_log_iff_exp_lt (by norm_num)]
  exact exp_ninehundredeight_lt

/-- C3 — the pipeline is a composition chain (`volts→siemens` is
`ohms_to_siemens` after `volts→ohms`, i.e. the reciprocal of `volts→ohms`;
`readings→siemens` is `volts→siemens` after `readings→volts`), and at the
reading 512 the conductance is within 0.001 of −2.0793430561630236e-05. -/
theorem pipeline_composition_chain :
    (∀ v : ℝ, bioemo_volts_to_siemens v = ohms_to_siemens (bioemo_volts_to_ohms v)) ∧
    (∀ v : ℝ, bioemo_volts_to_siemens v = 1 / bioemo_volts_to_ohms v) ∧
    (∀ x : ℝ, bioemo_readings_to_siemens x = bioemo_volts_to_siemens (bioemo_readings_to_volts x)) ∧
    |bioemo_readings_to_siemens 512 - (-2.0793430561630236e-5)| < 0.001 := by
  refine ⟨fun v => rfl, fun v => rfl, fun x => rfl, ?_⟩
  have hV : bioemo_readings_to_volts 512 = 2560 / 1023 := by
    unfold bioemo_readings_to_volts
    norm_num
  have hlog := log_midrange_volts_gt
  have hohms : bioemo_volts_to_ohms (2560 / 1023) < -40000 := by
    unfold bioemo_volts_to_ohms
    nlinarith [hlog]
  set R : ℝ := bioemo_volts_to_ohms (2560 / 1023) with hR
  have hRneg : R < 0 := by linarith
  have hs : bioemo_readings_to_siemens 512 = 1 / R := by
    unfold bioemo_readings_to_siemens bioemo_volts_to_siemens ohms_to_siemens
    rw [hV]
  have hsneg : 1 / R < 0 := by
    exact one_div_neg.mpr hRneg
  have habs : (40000 : ℝ) < |R| := by
    rw [abs_of_neg hRneg]
    linarith
  have hsmall : 1 / |R| < 1 / 40000 := one_div_lt_one_div_of_lt (by norm_num) habs
  have habs1 : |1 / R| = 1 / |R| := abs_one_div R
  have hlower : -(1 / 40000) < 1 / R := by
    have hls : |1 / R| < 1 / 40000 := by rw [habs1]; exact hsmall
    have := (abs_lt.mp hls).1
    linarith
  rw [hs, abs_lt]
  constructor <;> nlinarith [hsneg, hlower]

/-- C4 — `ohms_to_siemens ∘ siemens_to_ohms` is the identity on nonzero
inputs, the two functions agree everywhere, and `ohms_to_siemens 512` is
exactly `1/512`. -/
theorem reciprocal_pair_facts :
    (∀ s : ℝ, s ≠ 0 → ohms_to_siemens (siemens_to_ohms s) = s) ∧
    (∀ x : ℝ, siemens_to_ohms x = ohms_to_siemens x) ∧
    ohms_to_siemens 512 = 1 / 512 := by
  refine ⟨fun s _ => ?_, fun x => rfl, rfl⟩
  unfold siemens_to_ohms ohms_to_siemens
  exact one_div_one_div s

/-- C5 counterexample — at the nonzero input 1, the spec's equation
`unit_to_kilounit (unit_to_milliunit x) / 1e6 = x` fails: the left side is
`1e-6`, not `1`. -/
theorem kilo_milli_div_1e6_fails_at_one :
    (1 : ℝ) ≠ 0 ∧ ¬ unit_to_kilounit (unit_to_milliunit 1) / 1000000 = 1 := by
  unfold unit_to_kilounit unit_to_milliunit
  norm_num

/-- C5 amended — for nonzero `x`, `unit_to_kilounit (unit_to_milliunit x) / 1e6`
equals `x / 1e6` (the milli-then-kilo composition is the identity, so the
extra division by 1e6 leaves `x/1e6`, not `x`). -/
theorem kilo_milli_div_1e6_amended :
    ∀ x : ℝ, x ≠ 0 → unit_to_kilounit (unit_to_milliunit x) / 1000000 = x / 1000000 := by
  intro x _
  unfold unit_to_kilounit unit_to_milliunit
  ring

/-- Witness for the amended C5 at the concrete nonzero input 2. -/
theorem kilo_milli_div_1e6_amended_at_two :
    unit_to_kilounit (unit_to_milliunit 2) / 1000000 = (2 : ℝ) / 1000000 :=
  kilo_milli_div_1e6_amended 2 (by norm_num)

/-- C6 — the six SI-prefix helpers divide by 1e3/1e6/1e9 and multiply by
1e3/1e6/1e9 respectively, with the two concrete values the spec lists. -/
theorem unit_rescale_formulas :
    (∀ x : ℝ,
      unit_to_kilounit x = x / 1000 ∧
      unit_to_megaunit x = x / 1000000 ∧
      unit_to_gigaunit x = x / 1000000000 ∧
      unit_to_milliunit x = x * 1000 ∧
      unit_to_microunit x = x * 1000000 ∧
      unit_to_nanounit x = x * 1000000000) ∧
    unit_to_kilounit 1 = 0.001 ∧
    unit_to_milliunit 1 = 1000 := by
  refine ⟨fun x => ⟨rfl, rfl, rfl, rfl, rfl, rfl⟩, ?_, ?_⟩
  · unfold unit_to_kilounit
    norm_num
  · unfold unit_to_milliunit
    norm_num

/-- C7 — in the Python-value model, the `np.asarray`-based functions are
shape-preserving and elementwise on scalars, plain lists and numpy arrays,
and `unit_to_kilounit` is elementwise on numpy arrays; but at the failing
input, a plain Python list, `unit_to_kilounit` raises `TypeError` because its
body divides the list by a float without any `np.asarray` coercion,
contradicting its own docstring. -/
theorem shape_model_eval :
    (∀ x : ℝ, np_bioemo_readings_to_volts (PyVal.num x) =
        Except.ok (NpArr.scalar (bioemo_readings_to_volts x))) ∧
    (∀ xs : List ℝ, np_bioemo_readings_to_volts (PyVal.pylist xs) =
        Except.ok (NpArr.arr (xs.map bioemo_readings_to_volts))) ∧
    (∀ xs : List ℝ, np_bioemo_readings_to_volts (PyVal.ndarray xs) =
        Except.ok (NpArr.arr (xs.map bioemo_readings_to_volts))) ∧
    (∀ xs : List ℝ, np_unit_to_kilounit (PyVal.ndarray xs) =
        Except.ok (PyVal.ndarray (xs.map unit_to_kilounit))) ∧
    np_unit_to_kilounit (PyVal.pylist [1]) = Except.error PyErr.typeError := by
  exact ⟨fun x => rfl, fun xs => rfl, fun xs => rfl, fun xs => rfl, rfl⟩

/-- C8 — the success-or-`TypeError` dichotomy holds as claimed for the
`np.asarray`-based converters (they fail exactly on a non-coercible object),
`TypeError` is the only error kind any modelled function can raise, and the
numeric edge cases never raise: on extended numbers `1/0` gives `inf`,
`volts→ohms` at zero volts gives `inf` (from `log 0 = -inf`) and at negative
volts gives `nan`.  But the claim's universal characterization fails at the
failing input: a plain Python list of numbers, which `np.asarray` coerces
happily, makes `unit_to_kilounit` and `unit_to_milliunit` raise `TypeError`
because their bodies apply a raw Python operator with no coercion. -/
theorem error_paths_and_edge_cases :
    npAsarray (PyVal.pylist [1]) = Except.ok (NpArr.arr [1]) ∧
    np_unit_to_kilounit (PyVal.pylist [1]) = Except.error PyErr.typeError ∧
    np_unit_to_milliunit (PyVal.pylist [1]) = Except.error PyErr.typeError ∧
    (∀ v : PyVal, np_bioemo_volts_to_ohms v = Except.error PyErr.typeError ↔ v = PyVal.obj) ∧
    (∀ v : PyVal, np_ohms_to_siemens v = Except.error PyErr.typeError ↔ v = PyVal.obj) ∧
    (∀ v : PyVal, v ≠ PyVal.obj → ∃ a : NpArr, np_bioemo_volts_to_ohms v = Except.ok a) ∧
    (∀ v : PyVal, v ≠ PyVal.obj → ∃ a : NpArr, np_ohms_to_siemens v = Except.ok a) ∧
    (∀ v : PyVal, ∀ e : PyErr, np_bioemo_volts_to_ohms v = Except.error e → e = PyErr.typeError) ∧
    (∀ v : PyVal, ∀ e : PyErr, np_ohms_to_siemens v = Except.error e → e = PyErr.typeError) ∧
    (∀ v : PyVal, ∀ e : PyErr, np_unit_to_kilounit v = Except.error e → e = PyErr.typeError) ∧
    (∀ v : PyVal, ∀ e : PyErr, np_unit_to_milliunit v = Except.error e → e = PyErr.typeError) ∧
    num_ohms_to_siemens (NpNum.fin 0) = NpNum.inf ∧
    num_bioemo_volts_to_ohms (NpNum.fin 0) = NpNum.inf ∧
    num_bioemo_volts_to_ohms (NpNum.fin (-1)) = NpNum.nan := by
  refine ⟨rfl, rfl, rfl, ?_, ?_, ?_, ?_, ?_, ?_, ?_, ?_, ?_, ?_, ?_⟩
  · intro v
    cases v <;> simp [np_bioemo_volts_to_ohms, npAsarray]
  · intro v
    cases v <;> simp [np_ohms_to_siemens, npAsarray]
  · intro v hv
    cases v <;> first | exact ⟨_, rfl⟩ | exact absurd rfl hv
  · intro v hv
    cases v <;> first | exact ⟨_, rfl⟩ | exact absurd rfl hv
  · intro v e he
    cases v <;> simp [np_bioemo_volts_to_ohms, npAsarray] at he
    simp [he]
  · intro v e he
    cases v <;> simp [np_ohms_to_siemens, npAsarray] at he
    simp [he]
  · intro v e he
    cases v <;> simp [np_unit_to_kilounit, pyDivFloat] at he <;> simp [he]
  · intro v e he
    cases v <;> simp [np_unit_to_milliunit, pyMulFloat] at he <;> simp [he]
  · unfold num_ohms_to_siemens NpNum.div
    norm_num
  · unfold num_bioemo_volts_to_ohms NpNum.log NpNum.mul NpNum.sub
    norm_num
  · unfold num_bioemo_volts_to_ohms NpNum.log NpNum.mul NpNum.sub
    norm_num

/-- C9 — whenever `ln V > 0.861`, the fitted resistance is negative and so is
the derived conductance; consequently every reading whose voltage
`(x/1023)*5` exceeds `e^0.861` yields a negative conductance. -/
theorem negative_conductance_above_threshold :
    (∀ V : ℝ, 0.861 < Real.log V →
      bioemo_volts_to_ohms V < 0 ∧ bioemo_volts_to_siemens V < 0) ∧
    (∀ x : ℝ, Real.exp 0.861 < (x / 1023) * 5 → bioemo_readings_to_siemens x < 0) := by
  have main : ∀ V : ℝ, 0.861 < Real.log V →
      bioemo_volts_to_ohms V < 0 ∧ bioemo_volts_to_siemens V < 0 := by
    intro V hV
    have hohms : bioemo_volts_to_ohms V < 0 := by
      unfold bioemo_volts_to_ohms
      nlinarith [hV]
    exact ⟨hohms, one_div_neg.mpr hohms⟩
  refine ⟨main, fun x hx => ?_⟩
  have hVpos : (0 : ℝ) < (x / 1023) * 5 := lt_trans (Real.exp_pos _) hx
  have hlog : (0.861 : ℝ) < Real.log ((x / 1023) * 5) :=
    (Real.lt_log_iff_exp_lt hVpos).mpr hx
  exact (main _ hlog).2

/-- C10 — composing `unit_to_milliunit` then `unit_to_kilounit` is the
identity on every input, zero included: `(x*1000)/1000 = x`. -/
theorem milli_then_kilo_is_identity :
    ∀ x : ℝ, unit_to_kilounit (unit_to_milliunit x) = x := by
  intro x
  unfold unit_to_kilounit unit_to_milliunit
  ring
